import Mathlib

/-!
Verification of the model-routing / chat-orchestration subsystem of the
AI-APIChatTool-Web-Docker repository (backend/app/services/model_router.py and
its collaborators), as a shallow embedding in Lean 4.

Conventions used throughout:
* Python strings are Lean `String`s; `str.strip()` is embedded as `pyStrip`
  via the underlying character list, `str.lower()` as `pyLower` (the model
  names involved are ASCII), `pat in s` as `strContains`.
* Python `datetime` values are modelled as `Nat` seconds; `timedelta(minutes=1)`
  is 60 seconds.
* Database rows are Lean structures; a table is a `List` of rows.  The api-call
  log list is kept newest-first, so the repository's `ORDER BY created_at DESC`
  is the list order and its `LIMIT n` is `List.take n`.
* Fallible code returns `Except ChatError α`.
-/

/-- Python truthiness of an optional string column: `None` and `""` are falsy. -/
def pytruthy : Option String → Bool
  | none => false
  | some s => s ≠ ""

/-- Python truthiness of a nullable-with-default integer column used as
`x or d`: `0` (and NULL, which the schema forbids here) falls back to `d`. -/
def pyOrNat (n d : Nat) : Nat :=
  if n = 0 then d else n

/-- Python `str.strip()` on the character list: drop whitespace from both ends. -/
def pyStripList (l : List Char) : List Char :=
  ((l.dropWhile Char.isWhitespace).reverse.dropWhile Char.isWhitespace).reverse

/-- Python `str.strip()`. -/
def pyStrip (s : String) : String :=
  ⟨pyStripList s.data⟩

/-- Python `str.lower()` (the strings matched in the router are ASCII). -/
def pyLower (s : String) : String :=
  ⟨s.data.map Char.toLower⟩

/-- Python slicing `s[:n]` (character count, like Python). -/
def pyTake (s : String) (n : Nat) : String :=
  ⟨s.data.take n⟩

/-- Does `pat` occur as a contiguous run inside `l`? -/
def subSearch (pat : List Char) : List Char → Bool
  | [] => pat.isEmpty
  | l@(_ :: rest) => pat.isPrefixOf l || subSearch pat rest

/-- Python `pat in s` substring test. -/
def strContains (s pat : String) : Bool :=
  subSearch pat.data s.data

/-- A character in the CJK unified-ideograph range `'一'..'鿿'`
(`model_router._estimate_tokens`). -/
def isCjkChar (c : Char) : Bool :=
  0x4e00 ≤ c.toNat ∧ c.toNat ≤ 0x9fff

/-- `model_router._estimate_tokens`: pre-call token estimate
`int(chinese_chars / 1.5 + other_chars / 4)`.  Over the integers,
`chinese / 1.5 + other / 4 = (8 * chinese + 3 * other) / 12` exactly, and the
fractional part of the true value is a multiple of `1/12`, far outside the
rounding error of the Python float computation, so `int(...)` (truncation
toward zero of a nonnegative value) is exactly the Nat division below. -/
def estimate_tokens (text : String) : Nat :=
  if text = "" then 0
  else
    let chinese_chars := (text.data.filter isCjkChar).length
    let other_chars := text.length - chinese_chars
    (8 * chinese_chars + 3 * other_chars) / 12

/-- Python `str.split()` with no separator: split on whitespace runs, dropping
empty pieces.  The accumulator holds the current word reversed. -/
def splitWsAux : List Char → List Char → List (List Char)
  | [], acc => if acc.isEmpty then [] else [acc.reverse]
  | c :: rest, acc =>
    if c.isWhitespace then
      if acc.isEmpty then splitWsAux rest []
      else acc.reverse :: splitWsAux rest []
    else splitWsAux rest (c :: acc)

/-- Python `' '.join(words)`. -/
def joinSpace : List (List Char) → List Char
  | [] => []
  | [w] => w
  | w :: ws => w ++ ' ' :: joinSpace ws

/-- `model_router._extract_conversation_title`: collapse internal whitespace
(`' '.join(message.split())` after `strip()`) and truncate to 30 characters
plus `"..."` when longer. -/
def extract_conversation_title (message : String) : String :=
  if message = "" then "新对话"
  else
    let title : List Char := joinSpace (splitWsAux (pyStripList message.data) [])
    if title.length > 30 then ⟨title.take 30 ++ "...".data⟩ else ⟨title⟩

/-- `model_router._get_model_identifier`: lowercase-substring normalization of a
display name to the provider's literal identifier.  The `provider` argument is
accepted and ignored, exactly as in the source. -/
def get_model_identifier (model_name : String) (provider : String) : String :=
  let l := pyLower model_name
  if strContains l "deepseek" then
    if strContains l "coder" then "deepseek-coder" else "deepseek-chat"
  else if strContains l "gpt-4" then "gpt-4"
  else if strContains l "ernie" then "ernie-bot"
  else if strContains l "claude" then "claude-3-sonnet"
  else if strContains l "llama" then "llama-3-8b"
  else if model_name = "" then "gpt-3.5-turbo" else model_name

/-! ## Error taxonomy (app/exceptions.py) -/

/-- The typed errors raised by the orchestration path (`app/exceptions.py`),
plus `valueError` for Python `ValueError` (input validation) and `other` for
untyped `Exception`s.  `rateLimitExceeded` mirrors `RateLimitExceededError`,
which is declared in `app/exceptions.py` but never raised by the router. -/
inductive ChatError where
  | valueError (msg : String)
  | modelNotAvailable (msg : String)
  | modelConfig (msg : String)
  | apiRequest (msg : String)
  | insufficientQuota (msg : String)
  | conversationNotFound (msg : String)
  | rateLimitExceeded (msg : String)
  | other (msg : String)
deriving DecidableEq, Repr

/-- Python `str(e)`: the message carried by the exception. -/
def ChatError.msg : ChatError → String
  | .valueError m => m
  | .modelNotAvailable m => m
  | .modelConfig m => m
  | .apiRequest m => m
  | .insufficientQuota m => m
  | .conversationNotFound m => m
  | .rateLimitExceeded m => m
  | .other m => m

/-- Is a chat outcome a `RateLimitExceededError`? -/
def resultRateLimited : Except ChatError α → Bool
  | .error (.rateLimitExceeded _) => true
  | _ => false

/-! ## Provider wire responses -/

/-- The fields of a provider JSON response that the router reads
(`_extract_response_content`, `_calculate_tokens_used`).  Each optional field
is `none` when the corresponding key path is absent.
`choices_message_content` stands for `choices[0].message.content`,
`choices_text` for `choices[0].text`, `usage_total_tokens` for
`usage.total_tokens`, `top_total_tokens` for a top-level `total_tokens` key,
and `as_str` for Python `str(response_data)`. -/
structure ResponseData where
  choices_message_content : Option String := none
  choices_text : Option String := none
  usage_total_tokens : Option Nat := none
  result : Option String := none
  text : Option String := none
  output : Option String := none
  top_total_tokens : Option Nat := none
  as_str : String := ""
deriving DecidableEq, Repr

/-- One line of an event-stream body, after JSON decoding
(`_handle_stream_response`): a line not starting with `"data: "`, or a
`data:` line whose chunk is the literal `[DONE]`, malformed JSON, or a JSON
delta with an optional `choices[0].delta.content` string. -/
inductive StreamLine where
  | notData (s : String)
  | done
  | malformed
  | delta (content : Option String)
deriving DecidableEq, Repr

/-- The accumulation loop of `_handle_stream_response`: concatenate delta
contents, stopping at the `[DONE]` line. -/
def stream_accumulate : List StreamLine → String → String
  | [], acc => acc
  | .notData _ :: rest, acc => stream_accumulate rest acc
  | .done :: _, acc => acc
  | .malformed :: rest, acc => stream_accumulate rest acc
  | .delta none :: rest, acc => stream_accumulate rest acc
  | .delta (some c) :: rest, acc => stream_accumulate rest (acc ++ c)

/-- `model_router._handle_stream_response` on an `httpx.Response`: accumulate
the assistant text and return a simulated non-streaming envelope whose usage is
the rough estimate `len(content) // 4`. -/
def handle_stream_response (lines : List StreamLine) : ResponseData :=
  let content := stream_accumulate lines ""
  { choices_message_content := some content
    usage_total_tokens := some (content.length / 4) }

/-- `model_router._extract_response_content`.  (If `choices` is present the
first element's `message.content` / `text` fields are represented directly;
the defaulting chains `Dict.get(..., default)` become `Option.getD`.) -/
def extract_response_content (response_data : ResponseData) (provider : String)
    (stream : Bool) : String :=
  if stream then
    response_data.choices_message_content.getD ""
  else
    let p := pyLower provider
    if p = "openai" ∨ p = "deepseek" ∨ p = "anthropic" then
      match response_data.choices_message_content with
      | some c => c
      | none =>
        match response_data.choices_text with
        | some t => t
        | none => ""
    else if p = "baidu" ∨ p = "wenxin" then
      response_data.result.getD ""
    else
      match response_data.text with
      | some t => t
      | none =>
        match response_data.output with
        | some o => o
        | none => response_data.as_str

/-- `model_router._calculate_tokens_used`: provider-reported usage for the
OpenAI family, `len(result) // 3` for Wenxin, generic fallbacks otherwise. -/
def calculate_tokens_used (response_data : ResponseData) (provider : String) : Nat :=
  let p := pyLower provider
  if p = "openai" ∨ p = "deepseek" ∨ p = "anthropic" then
    response_data.usage_total_tokens.getD 0
  else if p = "baidu" ∨ p = "wenxin" then
    (extract_response_content response_data provider false).length / 3
  else
    match response_data.usage_total_tokens with
    | some n => n
    | none =>
      match response_data.top_total_tokens with
      | some n => n
      | none => 0

/-! ## Provider HTTP outcomes and client adapters -/

/-- What one outbound HTTP exchange does, as seen by a client method: an HTTP
response with a status, a parsed JSON body (used on 200, non-streaming), the
event-stream lines (used on 200, streaming) and the raw `response.text`; or a
transport failure (`httpx.TimeoutException` / `httpx.NetworkError`); or some
other exception from inside the client. -/
inductive AttemptOutcome where
  | http (status : Nat) (data : ResponseData) (lines : List StreamLine) (text : String)
  | timeout
  | network
  | exc (msg : String)
deriving Repr

/-- `response.text[:500] if response.text else "无错误信息"`. -/
def errorText (text : String) : String :=
  if text = "" then "无错误信息" else pyTake text 500

/-- `model_router._call_openai_via_client`: status-code handling of the
OpenAI-compatible endpoint.  The URL munging only affects the outbound wire
request, which the `AttemptOutcome` oracle abstracts; on a 400 the code merely
refines the message from the error body, represented here by the raw text. -/
def call_openai_via_client (stream : Bool) (o : AttemptOutcome) :
    Except ChatError ResponseData :=
  match o with
  | .http 200 data lines _ =>
    if stream then .ok (handle_stream_response lines) else .ok data
  | .http 401 _ _ _ => .error (.apiRequest "API密钥无效或已过期")
  | .http 429 _ _ _ => .error (.apiRequest "请求速率超限，请稍后重试")
  | .http 400 _ _ text => .error (.apiRequest ("API请求错误: " ++ errorText text))
  | .http s _ _ text =>
    .error (.apiRequest ("API错误 (" ++ toString s ++ "): " ++ errorText text))
  | .timeout => .error (.apiRequest "API请求超时，请稍后重试")
  | .network => .error (.apiRequest "网络连接错误，请检查网络后重试")
  | .exc m => .error (.other m)

/-- `model_router._call_wenxin_api`: 200 returns the JSON body (the `stream`
flag is ignored by this path); any other status or transport failure raises
`APIRequestError`. -/
def call_wenxin_api (o : AttemptOutcome) : Except ChatError ResponseData :=
  match o with
  | .http 200 data _ _ => .ok data
  | .http _ _ _ text => .error (.apiRequest ("文心一言API错误: " ++ errorText text))
  | .timeout => .error (.apiRequest "文心一言API请求超时")
  | .network => .error (.apiRequest "网络连接错误")
  | .exc m => .error (.other m)

/-- `model_router._call_deepseek_via_client` composed with
`DeepSeekClient.chat_completion` (app/utils/api_clients/deepseek_client.py):
non-streaming, a 200 returns the JSON body and any other status raises a plain
`Exception`; transport exceptions propagate untyped.  With `stream=True` the
client returns `await` applied to an async generator, a `TypeError`. -/
def call_deepseek_via_client (stream : Bool) (o : AttemptOutcome) :
    Except ChatError ResponseData :=
  if stream then
    .error (.other "TypeError: async generator cannot be awaited")
  else
    match o with
    | .http 200 data _ _ => .ok data
    | .http s _ _ text =>
      .error (.other ("DeepSeek API错误: " ++ toString s ++ " - " ++ text))
    | .timeout => .error (.other "httpx.TimeoutException")
    | .network => .error (.other "httpx.NetworkError")
    | .exc m => .error (.other m)

/-- The provider dispatch inside one iteration of
`_call_model_api_with_retry`'s loop: route by lowercased provider name, with
unknown providers falling back to the OpenAI-compatible client and, if that
also fails, raising `ModelNotAvailableError`. -/
def dispatch_once (provider : String) (stream : Bool) (o : AttemptOutcome) :
    Except ChatError ResponseData :=
  let p := pyLower provider
  if p = "openai" then call_openai_via_client stream o
  else if p = "deepseek" then call_deepseek_via_client stream o
  else if p = "baidu" ∨ p = "wenxin" then call_wenxin_api o
  else if p = "anthropic" then call_openai_via_client stream o
  else
    match call_openai_via_client stream o with
    | .ok d => .ok d
    | .error _ => .error (.modelNotAvailable ("不支持的供应商: " ++ provider))

/-- Is this one of the typed exceptions re-raised unwrapped at the last
attempt (`isinstance(e, (ModelNotAvailableError, APIRequestError,
InsufficientQuotaError, ModelConfigError))`)? -/
def isTypedRouterError : ChatError → Bool
  | .modelNotAvailable _ => true
  | .apiRequest _ => true
  | .insufficientQuota _ => true
  | .modelConfig _ => true
  | _ => false

/-- The terminal wrapping at the last attempt of `_call_model_api_with_retry`. -/
def wrap_retry_error (maxRetries : Nat) (e : ChatError) : ChatError :=
  if isTypedRouterError e then e
  else .apiRequest ("API请求失败，重试" ++ toString maxRetries ++ "次后失败: " ++ e.msg)

/-- Result of a dispatch: the value or surfaced error, the number of attempts
made, and the total backoff slept (in seconds; `retry_delay` is 1.0s). -/
structure DispatchResult where
  result : Except ChatError ResponseData
  attempts : Nat
  slept : Nat
deriving Repr

/-- The loop body of `_call_model_api_with_retry`: `fuel` is the number of
remaining loop iterations (initially `max_retries`), `attempt` the current
index, `slept` the backoff accumulated so far.  On a failure before the last
iteration it sleeps `retry_delay * 2 ** attempt` and continues; on the last it
surfaces the (possibly wrapped) error.  The `fuel = 0` case is the dead
`raise last_exception or APIRequestError("未知错误")` line, reachable only when
`max_retries = 0`. -/
def retry_go (attemptCall : Nat → Except ChatError ResponseData)
    (maxRetries base : Nat) : Nat → Nat → Nat → DispatchResult
  | 0, attempt, slept =>
    { result := .error (.apiRequest "未知错误"), attempts := attempt, slept := slept }
  | fuel + 1, attempt, slept =>
    match attemptCall attempt with
    | .ok d => { result := .ok d, attempts := attempt + 1, slept := slept }
    | .error e =>
      if attempt < maxRetries - 1 then
        retry_go attemptCall maxRetries base fuel (attempt + 1) (slept + base * 2 ^ attempt)
      else
        { result := .error (wrap_retry_error maxRetries e)
          attempts := attempt + 1, slept := slept }

/-- `model_router._call_model_api_with_retry`, parametrized by the per-attempt
provider call (`dispatch_once` applied to the attempt's outcome).  In the
service, `max_retries = 3` and `base = retry_delay = 1` second. -/
def call_model_api_with_retry (attemptCall : Nat → Except ChatError ResponseData)
    (maxRetries base : Nat) : DispatchResult :=
  retry_go attemptCall maxRetries base maxRetries 0 0

/-! ## Data model (app/models, app/repositories) -/

/-- A row of `system_models` (app/models/system_model.py), restricted to the
columns the router reads.  `rate_limit_per_minute` (default 60) and
`max_tokens` (default 4096) are NOT NULL columns. -/
structure SystemModel where
  model_id : Nat
  model_name : String
  model_provider : String
  api_endpoint : String
  is_available : Bool
  rate_limit_per_minute : Nat
  max_tokens : Nat
deriving DecidableEq, Repr

/-- A row of `user_model_configs` (app/models/user_model_config.py),
restricted to the columns the router reads. -/
structure UserConfig where
  user_id : Nat
  model_id : Nat
  is_enabled : Bool
  api_key : Option String
  api_key_encrypted : Option String
  custom_endpoint : Option String
deriving DecidableEq, Repr

/-- A row of `api_call_logs` (app/models/api_call_log.py): one CallRecord. -/
structure ApiCallLog where
  user_id : Nat
  model_id : Nat
  conversation_id : Option Nat
  endpoint : String
  request_tokens : Nat
  response_tokens : Nat
  total_tokens : Nat
  response_time_ms : Nat
  status_code : Nat
  is_success : Bool
  error_message : Option String
  created_at : Nat
deriving DecidableEq, Repr

/-- A row of `conversations` (app/models/conversation.py), restricted to the
columns the router touches. -/
structure Conversation where
  conversation_id : Nat
  user_id : Nat
  title : String
  model_id : Nat
  total_tokens : Nat
  message_count : Nat
  is_deleted : Bool
  created_at : Nat
  updated_at : Nat
deriving DecidableEq, Repr

/-- A row of `messages` (app/models/message.py), as appended by the
conversation store. -/
structure MessageRow where
  conversation_id : Nat
  role : String
  content : String
  tokens_used : Nat
  model_id : Option Nat
deriving DecidableEq, Repr

/-- The per-turn usage-statistics record written by
`ApiCallLogRepository.record_chat_completion` (the floating-point `cost`
column is omitted). -/
structure ChatStat where
  user_id : Nat
  model_id : Nat
  conversation_id : Option Nat
  prompt_tokens : Nat
  completion_tokens : Nat
  total_tokens : Nat
  response_time_ms : Nat
  is_success : Bool
deriving DecidableEq, Repr

/-- `ApiCallLogRepository.create_api_call`
(app/repositories/api_call_log_repository.py): build and append one CallRecord;
`total_tokens` is computed as `request_tokens + response_tokens`. -/
def create_api_call (user_id model_id : Nat) (endpoint : String)
    (request_tokens response_tokens response_time_ms status_code : Nat)
    (is_success : Bool) (error_message : Option String)
    (conversation_id : Option Nat) (created_at : Nat) : ApiCallLog :=
  { user_id, model_id, conversation_id, endpoint, request_tokens, response_tokens
    total_tokens := request_tokens + response_tokens
    response_time_ms, status_code, is_success, error_message, created_at }

/-- `SystemModelRepository.get_by_name`: first row with this `model_name`. -/
def get_by_name (models : List SystemModel) (model_name : String) :
    Option SystemModel :=
  models.find? (fun m => m.model_name = model_name)

/-- `BaseRepository.get_by_id` on `system_models`. -/
def get_by_id (models : List SystemModel) (model_id : Nat) : Option SystemModel :=
  models.find? (fun m => m.model_id = model_id)

/-- `UserModelConfigRepository.get_user_config_for_model`. -/
def get_user_config_for_model (configs : List UserConfig) (user_id model_id : Nat) :
    Option UserConfig :=
  configs.find? (fun c => c.user_id = user_id ∧ c.model_id = model_id)

/-- `ApiCallLogRepository.get_model_api_calls` with a `start_date` filter and a
row limit: rows of this model not older than `start_date`, newest first.  The
log list is maintained newest-first, so `ORDER BY created_at DESC` is the list
order and `LIMIT` is `take`. -/
def get_model_api_calls (logs : List ApiCallLog) (model_id start_date lim : Nat) :
    List ApiCallLog :=
  (logs.filter (fun l => l.model_id = model_id ∧ start_date ≤ l.created_at)).take lim

/-! ## Environment: the stores and the provider, as seen by one orchestration -/

/-- Everything outside the router that one `chat_completion` call observes:
the model catalog, the user's credential rows, the system-default key table
(`settings.DEFAULT_API_KEYS`), the decryption oracle (`none` = decryption
raises), the audit log (newest first), the conversation/message stores, the
per-attempt provider behavior, the clock and the measured latency. -/
structure Env where
  models : List SystemModel
  user_configs : List UserConfig
  default_api_keys : List (String × String)
  decrypt : String → Option String
  logs : List ApiCallLog
  conversations : List Conversation
  messages : List MessageRow
  stats : List ChatStat
  next_conv_id : Nat
  outcomes : Nat → AttemptOutcome
  now : Nat
  elapsed_ms : Nat

/-- Failure injection for the post-chat phase: `conv_store_raises` makes the
conversation/message store raise on write, `stats_raises` makes
`record_chat_completion` raise. -/
structure PostFlags where
  conv_store_raises : Bool
  stats_raises : Bool
deriving DecidableEq, Repr

/-- No injected post-chat failures. -/
def noPostFailure : PostFlags := ⟨false, false⟩

/-! ## Orchestration steps (model_router.py) -/

/-- `model_router._validate_user_input`: fail-fast checks on the raw input. -/
def validate_user_input (message model_name : String) (temperature : Rat)
    (max_tokens : Nat) : Except ChatError Unit :=
  if message = "" ∨ pyStrip message = "" then
    .error (.valueError "消息内容不能为空")
  else if (pyStrip message).length > 10000 then
    .error (.valueError "消息内容过长，最多10000个字符")
  else if temperature < 0 ∨ temperature > 2 then
    .error (.valueError "温度参数必须在0到2之间")
  else if max_tokens < 1 ∨ max_tokens > 8192 then
    .error (.valueError "最大token数必须在1到8192之间")
  else if model_name = "" ∨ pyStrip model_name = "" then
    .error (.valueError "模型名称不能为空")
  else
    .ok ()

/-- `model_router._get_user_api_config`: enabled per-user credential first
(plaintext, else decrypt the encrypted secret, a decryption failure raising
`ModelConfigError`); otherwise the system default key for the provider;
otherwise `(None, None)`. -/
def get_user_api_config (env : Env) (user_id model_id : Nat) :
    Except ChatError (Option String × Option String) :=
  match get_user_config_for_model env.user_configs user_id model_id with
  | some cfg =>
    if cfg.is_enabled then
      if pytruthy cfg.api_key then .ok (cfg.api_key, cfg.custom_endpoint)
      else if pytruthy cfg.api_key_encrypted then
        match env.decrypt (cfg.api_key_encrypted.getD "") with
        | some k => .ok (some k, cfg.custom_endpoint)
        | none => .error (.modelConfig "API密钥解密失败")
      else .ok (none, cfg.custom_endpoint)
    else
      match get_by_id env.models model_id with
      | some m =>
        match env.default_api_keys.lookup (pyLower m.model_provider) with
        | some k => .ok (some k, none)
        | none => .ok (none, none)
      | none => .ok (none, none)
  | none =>
    match get_by_id env.models model_id with
    | some m =>
      match env.default_api_keys.lookup (pyLower m.model_provider) with
      | some k => .ok (some k, none)
      | none => .ok (none, none)
    | none => .ok (none, none)

/-- `model_router._check_rate_limit`: count this user's calls for the model
among the (up to 1000 most recent) CallRecords of the trailing 60 seconds;
at or above the model's per-minute limit (60 when the model row is missing)
raise — an `APIRequestError`, not `RateLimitExceededError`. -/
def check_rate_limit (env : Env) (user_id model_id : Nat) : Except ChatError Unit :=
  let one_minute_ago := env.now - 60
  let recent_calls := get_model_api_calls env.logs model_id one_minute_ago 1000
  let user_calls := recent_calls.filter (fun l => l.user_id = user_id)
  let rate_limit :=
    match get_by_id env.models model_id with
    | some m => m.rate_limit_per_minute
    | none => 60
  if user_calls.length ≥ rate_limit then
    .error (.apiRequest ("速率限制：每分钟最多 " ++ toString rate_limit ++ " 次调用"))
  else
    .ok ()

/-- `model_router._validate_conversation_access`: the conversation must exist,
belong to the user, and not be soft-deleted. -/
def validate_conversation_access (env : Env) (user_id conversation_id : Nat) :
    Except ChatError Unit :=
  match env.conversations.find?
      (fun c => c.conversation_id = conversation_id ∧ c.user_id = user_id) with
  | none => .error (.conversationNotFound "对话不存在或无权限访问")
  | some c =>
    if c.is_deleted then .error (.conversationNotFound "对话已被删除") else .ok ()

/-! ## Conversation persistence (post-chat phase) -/

/-- The mutable conversation-side state threaded through the post-chat phase. -/
structure ConvState where
  conversations : List Conversation
  messages : List MessageRow
  stats : List ChatStat
  next_conv_id : Nat
deriving Repr

/-- Modelled from the spec: `ConversationService.save_message` is called by the
router but the class is absent from the source tree (only call sites exist).
Per the spec (§3 Message, §4.6, §6), the conversation/message store appends one
message row and reports success; conversation counters are updated separately
by the caller.  A raising store is modelled by the `raises` flag. -/
def save_message (st : ConvState) (raises : Bool) (conversation_id : Nat)
    (role content : String) (tokens_used : Nat) (model_id : Option Nat) :
    Except Unit (ConvState × Bool) :=
  if raises then .error ()
  else
    .ok ({ st with
            messages := st.messages ++
              [{ conversation_id, role, content, tokens_used, model_id }] },
         true)

/-- The retitle rule inside `_update_existing_conversation`: replace a default
title (`"新对话"` or `startswith("New Conversation")`) by the extracted title,
truncated to 50 characters, when the extracted title is truthy. -/
def retitle (title : String) (user_message : String) : String :=
  if title = "新对话" ∨ "New Conversation".data.isPrefixOf title.data then
    let t := extract_conversation_title user_message
    if t = "" then title else pyTake t 50
  else title

/-- `model_router._update_existing_conversation`: append the user and
assistant messages, then advance the conversation's counters by exactly 2
messages and the turn's tokens and apply the retitle rule; any raise rolls the
transaction back and returns `False`. -/
def update_existing_conversation (st : ConvState) (raises : Bool)
    (conversation_id : Nat) (user_message ai_response : String)
    (total_tokens : Nat) (model_id : Option Nat) (now : Nat) :
    ConvState × Bool :=
  match save_message st raises conversation_id "user" user_message 0 none with
  | .error _ => (st, false)
  | .ok (st1, user_ok) =>
    match save_message st1 raises conversation_id "assistant" ai_response
        total_tokens model_id with
    | .error _ => (st, false)
    | .ok (st2, ai_ok) =>
      let found := st2.conversations.any (fun c => c.conversation_id = conversation_id)
      let st3 := { st2 with
        conversations := st2.conversations.map (fun c =>
          if c.conversation_id = conversation_id then
            { c with
              message_count := c.message_count + 2
              total_tokens := c.total_tokens + total_tokens
              updated_at := now
              title := retitle c.title user_message }
          else c) }
      (st3, user_ok && ai_ok && found)

/-- `model_router._create_new_conversation`: build the title, insert a
conversation row with `message_count = 2` and the turn's tokens, then call
`_update_existing_conversation` to append the two messages (which advances the
counters again); a raise rolls back and reports failure. -/
def create_new_conversation (st : ConvState) (raises : Bool)
    (user_id model_id : Nat) (user_message ai_response : String)
    (total_tokens now : Nat) : ConvState × Option Nat :=
  let title0 := extract_conversation_title user_message
  let title := if title0 = "" then "新对话" else title0
  if raises then (st, none)
  else
    let cid := st.next_conv_id
    let conv : Conversation :=
      { conversation_id := cid, user_id, title := pyTake title 50, model_id
        message_count := 2, total_tokens, is_deleted := false
        created_at := now, updated_at := now }
    let st1 := { st with
      conversations := st.conversations ++ [conv], next_conv_id := cid + 1 }
    let (st2, _saved) := update_existing_conversation st1 raises cid user_message
      ai_response total_tokens (some model_id) now
    (st2, some cid)

/-- `model_router._check_user_quota`: the stubbed quota check always grants
quota (and even its failure path grants quota). -/
def check_user_quota (_user_id _tokens_used : Nat) : Bool := true

/-- Modelled from the spec: `ApiCallLogRepository.record_chat_completion` is
called by the router but absent from the source tree.  Per §4.7 it appends one
usage-statistics record for the turn. -/
def record_chat_completion (st : ConvState) (user_id model_id : Nat)
    (conversation_id : Option Nat)
    (prompt_tokens completion_tokens total_tokens response_time_ms : Nat) :
    ConvState :=
  { st with stats := st.stats ++
      [{ user_id, model_id, conversation_id, prompt_tokens, completion_tokens
         total_tokens, response_time_ms, is_success := true }] }

/-- The result dictionary of `_post_chat_processing`. -/
structure PostResult where
  success : Bool
  messages_saved : Bool
  conversation_updated : Bool
  quota_checked : Bool
  new_conversation_id : Option Nat
deriving DecidableEq, Repr

/-- `model_router._post_chat_processing`: quota check, then update or create
the conversation (both of which swallow their own store failures), then
`record_chat_completion`; every exception inside the phase is caught, setting
`success = False` on the partially filled result.  Note that in the creation
branch `new_conversation_id` is filled in before `record_chat_completion`, so
it survives a stats failure. -/
def post_chat_processing (st : ConvState) (pflags : PostFlags)
    (user_id model_id : Nat) (conversation_id : Option Nat)
    (user_message ai_response : String)
    (prompt_tokens completion_tokens total_tokens : Nat)
    (now elapsed_ms : Nat) : PostResult × ConvState :=
  let _has_quota := check_user_quota user_id total_tokens
  match conversation_id with
  | some cid =>
    let (st1, updated) := update_existing_conversation st pflags.conv_store_raises
      cid user_message ai_response total_tokens (some model_id) now
    if pflags.stats_raises then
      ({ success := false, messages_saved := false, conversation_updated := updated
         quota_checked := true, new_conversation_id := none }, st1)
    else
      ({ success := true, messages_saved := true, conversation_updated := updated
         quota_checked := true, new_conversation_id := none },
       record_chat_completion st1 user_id model_id (some cid)
         prompt_tokens completion_tokens total_tokens elapsed_ms)
  | none =>
    let (st1, newId) := create_new_conversation st pflags.conv_store_raises
      user_id model_id user_message ai_response total_tokens now
    if pflags.stats_raises then
      ({ success := false, messages_saved := false
         conversation_updated := newId.isSome
         quota_checked := true, new_conversation_id := newId }, st1)
    else
      ({ success := true, messages_saved := true
         conversation_updated := newId.isSome
         quota_checked := true, new_conversation_id := newId },
       record_chat_completion st1 user_id model_id newId
         prompt_tokens completion_tokens total_tokens elapsed_ms)

/-! ## The orchestration entry point -/

/-- The externally visible side effects of the pre-dispatch pipeline, in
order: model-catalog lookup, credential resolution, rate-limit check,
conversation-ownership check, outbound network dispatch. -/
inductive Effect where
  | modelLookup
  | credentialResolve
  | rateLimitCheck
  | conversationCheck
  | networkDispatch
deriving DecidableEq, Repr

/-- What a successful pass through steps 1-8 of `chat_completion` produces. -/
structure PreSuccess where
  system_model : SystemModel
  response_text : String
  tokens_used : Nat
  prompt_tokens : Nat
  completion_tokens : Nat
  dispatch : DispatchResult
deriving Repr

/-- Steps 1-8 of `model_router.chat_completion` (validation, model lookup,
credential resolution, rate limiting, conversation-access check, dispatch with
retry, extraction), together with the trace of effects performed.  On failure
it carries the `system_model` binding visible to the `except` block's
`locals()` probe.  Request construction (step 6) only shapes the outbound wire
body, which the `AttemptOutcome` oracle absorbs. -/
def chat_pre (env : Env) (user_id : Nat) (model_name message : String)
    (conversation_id : Option Nat) (temperature : Rat) (max_tokens : Nat)
    (stream : Bool) :
    Except (ChatError × Option SystemModel) PreSuccess × List Effect :=
  match validate_user_input message model_name temperature max_tokens with
  | .error e => (.error (e, none), [])
  | .ok _ =>
    let tr1 := [Effect.modelLookup]
    match get_by_name env.models model_name with
    | none =>
      (.error (.modelNotAvailable ("模型 '" ++ model_name ++ "' 不存在或未激活"), none), tr1)
    | some m =>
      if m.is_available = false then
        (.error (.modelNotAvailable ("模型 '" ++ model_name ++ "' 不存在或未激活"), some m), tr1)
      else
        let tr2 := tr1 ++ [Effect.credentialResolve]
        match get_user_api_config env user_id m.model_id with
        | .error e => (.error (e, some m), tr2)
        | .ok (api_key, _custom_endpoint) =>
          if pytruthy api_key = false then
            (.error (.modelConfig ("未配置模型 '" ++ model_name ++ "' 的API密钥"), some m), tr2)
          else
            let tr3 := tr2 ++ [Effect.rateLimitCheck]
            match check_rate_limit env user_id m.model_id with
            | .error e => (.error (e, some m), tr3)
            | .ok _ =>
              let tr4 :=
                match conversation_id with
                | some _ => tr3 ++ [Effect.conversationCheck]
                | none => tr3
              let access :=
                match conversation_id with
                | some cid => validate_conversation_access env user_id cid
                | none => .ok ()
              match access with
              | .error e => (.error (e, some m), tr4)
              | .ok _ =>
                let tr5 := tr4 ++ [Effect.networkDispatch]
                let d := call_model_api_with_retry
                  (fun n => dispatch_once m.model_provider stream (env.outcomes n)) 3 1
                match d.result with
                | .error e => (.error (e, some m), tr5)
                | .ok data =>
                  let response_text := extract_response_content data m.model_provider stream
                  let tokens_used := calculate_tokens_used data m.model_provider
                  let prompt_tokens := estimate_tokens message
                  let completion_tokens := tokens_used - prompt_tokens
                  (.ok { system_model := m, response_text, tokens_used
                         prompt_tokens, completion_tokens, dispatch := d }, tr5)

/-- The dictionary returned by a successful `chat_completion`. -/
structure ChatResult where
  response : String
  model_used : String
  tokens_used : Nat
  processing_time_ms : Nat
  conversation_id : Nat
  success : Bool
deriving DecidableEq, Repr

/-- The full observable outcome of one `chat_completion` call: the returned
value or propagated error, the audit log, the conversation-side stores, and
the trace of pre-dispatch effects. -/
structure ChatOutcome where
  result : Except ChatError ChatResult
  logs : List ApiCallLog
  conversations : List Conversation
  messages : List MessageRow
  stats : List ChatStat
  trace : List Effect
deriving Repr

/-- `model_router.chat_completion`, the public entry point.  A failure in
steps 1-8 reaches the `except` block, which writes exactly one failure
CallRecord (`status_code=500`, model id and endpoint from the `locals()`
probe) and re-raises.  On success, one success CallRecord (status 200) is
written, the user config's `last_used_at` is touched (a read-modify-write that
never raises), and `_post_chat_processing` runs with every internal failure
swallowed; the returned conversation id is the new conversation's id when one
was created, else the supplied one, else 0. -/
def chat_completion (env : Env) (pflags : PostFlags) (user_id : Nat)
    (model_name message : String) (conversation_id : Option Nat)
    (temperature : Rat) (max_tokens : Nat) (stream : Bool) : ChatOutcome :=
  match chat_pre env user_id model_name message conversation_id temperature
      max_tokens stream with
  | (.error (e, bound), tr) =>
    let mid := match bound with | some m => m.model_id | none => 0
    let ep := match bound with | some m => m.api_endpoint | none => ""
    let failLog := create_api_call user_id mid ep (estimate_tokens message) 0
      env.elapsed_ms 500 false (some e.msg) conversation_id env.now
    { result := .error e, logs := failLog :: env.logs
      conversations := env.conversations, messages := env.messages
      stats := env.stats, trace := tr }
  | (.ok p, tr) =>
    let successLog := create_api_call user_id p.system_model.model_id
      p.system_model.api_endpoint p.prompt_tokens p.completion_tokens
      env.elapsed_ms 200 true none conversation_id env.now
    let st0 : ConvState :=
      { conversations := env.conversations, messages := env.messages
        stats := env.stats, next_conv_id := env.next_conv_id }
    let post := post_chat_processing st0 pflags user_id p.system_model.model_id
      conversation_id message p.response_text p.prompt_tokens
      p.completion_tokens p.tokens_used env.now env.elapsed_ms
    let cid :=
      match post.fst.new_conversation_id with
      | some n => n
      | none => conversation_id.getD 0
    { result := .ok { response := p.response_text, model_used := model_name
                      tokens_used := p.tokens_used
                      processing_time_ms := env.elapsed_ms
                      conversation_id := cid, success := true }
      logs := successLog :: env.logs
      conversations := post.snd.conversations
      messages := post.snd.messages
      stats := post.snd.stats
      trace := tr }

/-! ## Concrete environments used by closed theorems and witnesses -/

/-- An OpenAI-shaped 200 body: `choices[0].message.content = "你好"`,
`usage.total_tokens = 7`. -/
def respOk : ResponseData :=
  { choices_message_content := some "你好", usage_total_tokens := some 7 }

/-- A healthy environment: one available OpenAI model, one enabled plaintext
credential, empty stores, and a provider that always answers 200. -/
def envSuccess : Env :=
  { models := [⟨1, "gpt-4", "openai", "https://api.test/v1/chat/completions", true, 60, 4096⟩]
    user_configs := [⟨1, 1, true, some "sk-test123", none, none⟩]
    default_api_keys := []
    decrypt := fun _ => none
    logs := []
    conversations := []
    messages := []
    stats := []
    next_conv_id := 1
    outcomes := fun _ => .http 200 respOk [] ""
    now := 1000
    elapsed_ms := 5 }

/-- A successful CallRecord row used to populate the rate-limit window. -/
def rlLog (t : Nat) : ApiCallLog :=
  { user_id := 1, model_id := 1, conversation_id := none, endpoint := "e"
    request_tokens := 0, response_tokens := 0, total_tokens := 0
    response_time_ms := 0, status_code := 200, is_success := true
    error_message := none, created_at := t }

/-- An environment whose model has `rate_limit_per_minute = 2` and whose log
already holds 2 calls by user 1 inside the trailing 60 seconds. -/
def envRateLimited : Env :=
  { models := [⟨1, "gpt-4", "openai", "ep", true, 2, 4096⟩]
    user_configs := [⟨1, 1, true, some "sk-test123", none, none⟩]
    default_api_keys := []
    decrypt := fun _ => none
    logs := [rlLog 995, rlLog 990]
    conversations := []
    messages := []
    stats := []
    next_conv_id := 1
    outcomes := fun _ => .http 200 respOk [] ""
    now := 1000
    elapsed_ms := 1 }

/-- An environment with an empty model catalog: every chat fails at lookup. -/
def envEmpty : Env :=
  { models := []
    user_configs := []
    default_api_keys := []
    decrypt := fun _ => none
    logs := []
    conversations := []
    messages := []
    stats := []
    next_conv_id := 1
    outcomes := fun _ => .http 200 respOk [] ""
    now := 1000
    elapsed_ms := 1 }

/-- A 10001-character message, one over the validation limit. -/
def bigMessage : String := ⟨List.replicate 10001 'a'⟩

/-- A per-attempt provider call that always sees HTTP 401. -/
def attempt401 : Nat → Except ChatError ResponseData :=
  fun _ => call_openai_via_client false (.http 401 {} [] "Unauthorized")

/-- A per-attempt provider call that always sees HTTP 500. -/
def attempt500 : Nat → Except ChatError ResponseData :=
  fun _ => call_openai_via_client false (.http 500 {} [] "Internal Server Error")

/-! ## Helper lemmas -/

/-- `dropWhile` is the identity on a replicate of a non-matching character. -/
theorem dropWhile_replicate_no (p : Char → Bool) (a : Char) (h : p a = false)
    (n : Nat) : List.dropWhile p (List.replicate n a) = List.replicate n a := by
  cases n with
  | zero => rfl
  | succ n => rw [List.replicate_succ, List.dropWhile_cons, h]; simp

/-- `pyStrip` is the identity on an all-`'a'` string. -/
theorem pyStrip_replicate (n : Nat) :
    pyStrip ⟨List.replicate n 'a'⟩ = ⟨List.replicate n 'a'⟩ := by
  simp [pyStrip, pyStripList, dropWhile_replicate_no, List.reverse_replicate]

/-- `bigMessage` strips to more than 10000 characters. -/
theorem bigMessage_strip_long : 10000 < (pyStrip bigMessage).length := by
  rw [bigMessage, pyStrip_replicate]
  show 10000 < (List.replicate 10001 'a').length
  rw [List.length_replicate]
  omega

/-- The retry loop performs at most `attempt + fuel` attempts in total. -/
theorem retry_go_attempts_le (ac : Nat → Except ChatError ResponseData)
    (mr base : Nat) : ∀ (fuel attempt slept : Nat),
    (retry_go ac mr base fuel attempt slept).attempts ≤ attempt + fuel := by
  intro fuel
  induction fuel with
  | zero => intro attempt slept; simp [retry_go]
  | succ f ih =>
    intro attempt slept
    simp only [retry_go]
    cases h : ac attempt with
    | ok d => simp [h]
    | error e =>
      by_cases hlt : attempt < mr - 1
      · simp only [hlt, if_true]
        have := ih (attempt + 1) (slept + base * 2 ^ attempt)
        omega
      · simp only [hlt, if_false]
        omega

/-! ## Claim theorems -/

/-- Claim C1 (code bug, evaluated at the failing input): one successful
`chat_completion` turn with no `conversation_id` and a 7-token provider
response creates a conversation whose `message_count` is 4 and whose
`total_tokens` is 14, while exactly 2 messages were appended — not the
`message_count = 2` and `total_tokens = 7` (the turn's total) that the claim
states, because `_create_new_conversation` initializes the counters to
`(2, total)` and then `_update_existing_conversation` advances them by
`(2, total)` again for the same two messages. -/
theorem c1_new_conversation_counters_doubled :
    (chat_completion envSuccess noPostFailure 1 "gpt-4" "hi" none 1 100 false).result
      = .ok { response := "你好", model_used := "gpt-4", tokens_used := 7
              processing_time_ms := 5, conversation_id := 1, success := true } ∧
    ((chat_completion envSuccess noPostFailure 1 "gpt-4" "hi" none 1 100 false).conversations.map
      (fun c => (c.message_count, c.total_tokens))) = [(4, 14)] ∧
    (chat_completion envSuccess noPostFailure 1 "gpt-4" "hi" none 1 100 false).messages.length = 2 ∧
    ¬ ((4, 14) = ((2 : Nat), (7 : Nat))) :=
  ⟨rfl, rfl, rfl, by decide⟩

/-- Claim C2 (amended): when validation, model lookup and credential
resolution succeed and the user's CallRecords for the model among the (up to
1000 most recent) records of the trailing 60 seconds reach the model's
per-minute limit, `chat_completion` fails — with an `APIRequestError` whose
message reports the limit, not with `RateLimitExceededError`. -/
theorem c2_rate_limited_raises_api_request_error (env : Env) (pflags : PostFlags)
    (user_id : Nat) (model_name message : String) (conversation_id : Option Nat)
    (temperature : Rat) (max_tokens : Nat) (stream : Bool)
    (m : SystemModel) (key endpointOverride : Option String)
    (hval : validate_user_input message model_name temperature max_tokens = .ok ())
    (hname : get_by_name env.models model_name = some m)
    (havail : m.is_available = true)
    (hcfg : get_user_api_config env user_id m.model_id = .ok (key, endpointOverride))
    (hkey : pytruthy key = true)
    (hid : get_by_id env.models m.model_id = some m)
    (hrate : m.rate_limit_per_minute ≤
      ((get_model_api_calls env.logs m.model_id (env.now - 60) 1000).filter
        (fun l => l.user_id = user_id)).length) :
    (chat_completion env pflags user_id model_name message conversation_id
        temperature max_tokens stream).result
      = .error (.apiRequest ("速率限制：每分钟最多 "
          ++ toString m.rate_limit_per_minute ++ " 次调用")) := by
  have hcheck : check_rate_limit env user_id m.model_id
      = .error (.apiRequest ("速率限制：每分钟最多 "
          ++ toString m.rate_limit_per_minute ++ " 次调用")) := by
    unfold check_rate_limit
    rw [hid]
    rw [if_pos hrate]
  unfold chat_completion chat_pre
  rw [hval, hname]
  simp [havail, hcfg, hkey, hcheck]

/-- Witness for C2: in `envRateLimited` (limit 2, two calls by user 1 in the
window) the rate-limit gate trips and the failure is an `APIRequestError`. -/
theorem c2_rate_limited_witness :
    (chat_completion envRateLimited noPostFailure 1 "gpt-4" "hi" none 1 100 false).result
      = .error (.apiRequest ("速率限制：每分钟最多 "
          ++ toString (2 : Nat) ++ " 次调用")) :=
  c2_rate_limited_raises_api_request_error envRateLimited noPostFailure 1 "gpt-4"
    "hi" none 1 100 false ⟨1, "gpt-4", "openai", "ep", true, 2, 4096⟩
    (some "sk-test123") none rfl rfl rfl rfl rfl rfl (by decide)

/-- Counterexample for C2 as stated: at the same rate-limited input the error
raised is `APIRequestError`, not a `RateLimitExceededError`. -/
theorem c2_error_is_not_rate_limit_exceeded :
    (chat_completion envRateLimited noPostFailure 1 "gpt-4" "hi" none 1 100 false).result
      = .error (.apiRequest "速率限制：每分钟最多 2 次调用") ∧
    resultRateLimited (chat_completion envRateLimited noPostFailure 1 "gpt-4"
      "hi" none 1 100 false).result = false :=
  ⟨rfl, rfl⟩

/-- Claim C3 (amended): an HTTP 401 from the provider is retried like every
other failure: the dispatcher makes exactly 3 attempts, sleeping
`base * 2^0` then `base * 2^1` seconds, and only then raises the
`APIRequestError` produced by the 401. -/
theorem c3_http401_retried_three_attempts (base : Nat) :
    (call_model_api_with_retry attempt401 3 base).result
      = .error (.apiRequest "API密钥无效或已过期") ∧
    (call_model_api_with_retry attempt401 3 base).attempts = 3 ∧
    (call_model_api_with_retry attempt401 3 base).slept = base + 2 * base := by
  refine ⟨rfl, rfl, ?_⟩
  show (0 + base * 2 ^ 0 + base * 2 ^ 1) = base + 2 * base
  simp [pow_succ]
  omega

/-- Counterexample for C3 as stated: with every attempt answered HTTP 401 and
`base = 1`, the dispatcher does not stop after 1 attempt with no backoff — it
makes 3 attempts and sleeps 3 seconds before raising `APIRequestError`. -/
theorem c3_http401_not_immediate :
    (call_model_api_with_retry attempt401 3 1).attempts = 3 ∧
    ¬ ((call_model_api_with_retry attempt401 3 1).attempts = 1) ∧
    (call_model_api_with_retry attempt401 3 1).slept = 3 ∧
    ¬ ((call_model_api_with_retry attempt401 3 1).slept = 0) ∧
    (call_model_api_with_retry attempt401 3 1).result
      = .error (.apiRequest "API密钥无效或已过期") :=
  ⟨rfl, by decide, rfl, by decide, rfl⟩

/-- Claim C4: whenever `chat_completion` propagates an error, the audit log
has grown by exactly one CallRecord, with `is_success = false`,
`status_code = 500` and the stringified error as its message. -/
theorem c4_failure_writes_exactly_one_record (env : Env) (pflags : PostFlags)
    (user_id : Nat) (model_name message : String) (conversation_id : Option Nat)
    (temperature : Rat) (max_tokens : Nat) (stream : Bool) (e : ChatError)
    (h : (chat_completion env pflags user_id model_name message conversation_id
        temperature max_tokens stream).result = .error e) :
    ∃ rec, (chat_completion env pflags user_id model_name message conversation_id
        temperature max_tokens stream).logs = rec :: env.logs ∧
      rec.is_success = false ∧ rec.status_code = 500 ∧
      rec.error_message = some e.msg := by
  unfold chat_completion at h ⊢
  revert h
  rcases hp : chat_pre env user_id model_name message conversation_id temperature
      max_tokens stream with ⟨res, tr⟩
  intro h
  cases res with
  | error eb =>
    rcases eb with ⟨e', bound⟩
    have he : e' = e := by
      simpa using h
    subst he
    exact ⟨_, rfl, rfl, rfl, rfl⟩
  | ok p =>
    simp at h

/-- Witness for C4: against the empty model catalog the call fails with
`ModelNotAvailableError` and exactly one failure CallRecord is appended. -/
theorem c4_failure_record_witness :
    ∃ rec, (chat_completion envEmpty noPostFailure 1 "gpt-4" "hi" none 1 100
        false).logs = rec :: envEmpty.logs ∧
      rec.is_success = false ∧ rec.status_code = 500 ∧
      rec.error_message
        = some (ChatError.modelNotAvailable "模型 'gpt-4' 不存在或未激活").msg :=
  c4_failure_writes_exactly_one_record envEmpty noPostFailure 1 "gpt-4" "hi"
    none 1 100 false (.modelNotAvailable "模型 'gpt-4' 不存在或未激活") rfl

/-- Claim C5: the dispatcher never exceeds `max_retries = 3` attempts; when
all attempts fail the dispatch makes exactly 3 attempts with cumulative
backoff `base * 2^0 + base * 2^1`; in particular three consecutive HTTP 500
responses surface an `APIRequestError` after exactly 3 attempts with backoff
`base + 2 * base`. -/
theorem c5_retry_bound_and_backoff (attemptCall : Nat → Except ChatError ResponseData)
    (base : Nat) :
    (call_model_api_with_retry attemptCall 3 base).attempts ≤ 3 ∧
    ((∀ n, n < 3 → ∃ e, attemptCall n = .error e) →
      (call_model_api_with_retry attemptCall 3 base).attempts = 3 ∧
      (call_model_api_with_retry attemptCall 3 base).slept
        = base * 2 ^ 0 + base * 2 ^ 1) ∧
    ((call_model_api_with_retry attempt500 3 base).result
      = .error (.apiRequest "API错误 (500): Internal Server Error") ∧
     (call_model_api_with_retry attempt500 3 base).attempts = 3 ∧
     (call_model_api_with_retry attempt500 3 base).slept = base + 2 * base) := by
  refine ⟨?_, ?_, ?_, ?_, ?_⟩
  · exact retry_go_attempts_le attemptCall 3 base 3 0 0
  · intro hfail
    obtain ⟨e0, h0⟩ := hfail 0 (by omega)
    obtain ⟨e1, h1⟩ := hfail 1 (by omega)
    obtain ⟨e2, h2⟩ := hfail 2 (by omega)
    simp [call_model_api_with_retry, retry_go, h0, h1, h2]
  · rfl
  · rfl
  · show (0 + base * 2 ^ 0 + base * 2 ^ 1) = base + 2 * base
    simp [pow_succ]
    omega

/-- Witness for C5: with every attempt failing and `base = 1`, exactly 3
attempts are made and the backoff is `1 + 2 = 3` seconds. -/
theorem c5_retry_witness :
    (call_model_api_with_retry (fun _ => .error (.other "boom")) 3 1).attempts ≤ 3 ∧
    (call_model_api_with_retry (fun _ => .error (.other "boom")) 3 1).attempts = 3 ∧
    (call_model_api_with_retry (fun _ => .error (.other "boom")) 3 1).slept
      = 1 * 2 ^ 0 + 1 * 2 ^ 1 := by
  have h := c5_retry_bound_and_backoff (fun _ => .error (.other "boom")) 1
  have hf : ∀ n, n < 3 → ∃ e, (fun _ => (.error (.other "boom") :
      Except ChatError ResponseData)) n = .error e := fun n _ => ⟨.other "boom", rfl⟩
  exact ⟨h.1, (h.2.1 hf).1, (h.2.1 hf).2⟩

/-- Claim C6: every CallRecord built by `create_api_call` satisfies
`total_tokens = request_tokens + response_tokens`, by construction. -/
theorem c6_total_tokens_invariant (user_id model_id : Nat) (endpoint : String)
    (request_tokens response_tokens response_time_ms status_code : Nat)
    (ok : Bool) (error_message : Option String) (conversation_id : Option Nat)
    (created_at : Nat) :
    (create_api_call user_id model_id endpoint request_tokens response_tokens
      response_time_ms status_code ok error_message conversation_id
      created_at).total_tokens = request_tokens + response_tokens := rfl

/-- Claim C7 (amended): the Wenxin non-streaming path records
`len(result) // 3` and the streaming path records `len(content) // 4` — flat
character counts, not the CJK-aware pre-call heuristic. -/
theorem c7_wenxin_and_stream_token_rule (data : ResponseData)
    (lines : List StreamLine) :
    calculate_tokens_used data "wenxin" = (data.result.getD "").length / 3 ∧
    (handle_stream_response lines).usage_total_tokens
      = some ((stream_accumulate lines "").length / 4) :=
  ⟨rfl, rfl⟩

/-- Counterexample for C7 as stated: on the response text `"中中中"` the
pre-call heuristic gives `int(3/1.5 + 0/4) = 2`, but the Wenxin path records
`3 // 3 = 1` and the streaming path records `3 // 4 = 0`. -/
theorem c7_heuristic_counterexample :
    calculate_tokens_used { result := some "中中中" } "wenxin" = 1 ∧
    estimate_tokens "中中中" = 2 ∧
    ¬ (calculate_tokens_used { result := some "中中中" } "wenxin"
        = estimate_tokens "中中中") ∧
    (handle_stream_response [StreamLine.delta (some "中中中"),
      StreamLine.done]).usage_total_tokens = some 0 ∧
    ¬ ((handle_stream_response [StreamLine.delta (some "中中中"),
      StreamLine.done]).usage_total_tokens = some (estimate_tokens "中中中")) := by
  refine ⟨rfl, by decide, by decide, rfl, by decide⟩

/-- Claim C8: the display-name normalization is idempotent — in fact for every
string, hence for every supported display name. -/
theorem c8_normalize_idempotent (name provider : String) :
    get_model_identifier (get_model_identifier name provider) provider =
      get_model_identifier name provider := by
  by_cases h1 : strContains (pyLower name) "deepseek" = true
  · by_cases h2 : strContains (pyLower name) "coder" = true
    · have e : get_model_identifier name provider = "deepseek-coder" := by
        unfold get_model_identifier; simp [h1, h2]
      rw [e]; rfl
    · have e : get_model_identifier name provider = "deepseek-chat" := by
        unfold get_model_identifier; simp [h1, h2]
      rw [e]; rfl
  · by_cases h3 : strContains (pyLower name) "gpt-4" = true
    · have e : get_model_identifier name provider = "gpt-4" := by
        unfold get_model_identifier; simp [h1, h3]
      rw [e]; rfl
    · by_cases h4 : strContains (pyLower name) "ernie" = true
      · have e : get_model_identifier name provider = "ernie-bot" := by
          unfold get_model_identifier; simp [h1, h3, h4]
        rw [e]; rfl
      · by_cases h5 : strContains (pyLower name) "claude" = true
        · have e : get_model_identifier name provider = "claude-3-sonnet" := by
            unfold get_model_identifier; simp [h1, h3, h4, h5]
          rw [e]; rfl
        · by_cases h6 : strContains (pyLower name) "llama" = true
          · have e : get_model_identifier name provider = "llama-3-8b" := by
              unfold get_model_identifier; simp [h1, h3, h4, h5, h6]
            rw [e]; rfl
          · by_cases h7 : name = ""
            · subst h7
              rfl
            · have e : get_model_identifier name provider = name := by
                unfold get_model_identifier; simp [h1, h3, h4, h5, h6, h7]
              rw [e]
              exact e

/-- Claim C9: if a run with no post-chat failure returns success, then the
same run with any post-chat failure injected (conversation store raising,
stats recording raising, or both) still returns a success result with the same
`response_text` and `tokens_used`. -/
theorem c9_post_chat_failure_swallowed (env : Env) (pflags : PostFlags)
    (user_id : Nat) (model_name message : String) (conversation_id : Option Nat)
    (temperature : Rat) (max_tokens : Nat) (stream : Bool) (r : ChatResult)
    (h : (chat_completion env noPostFailure user_id model_name message
        conversation_id temperature max_tokens stream).result = .ok r) :
    ∃ r', (chat_completion env pflags user_id model_name message conversation_id
        temperature max_tokens stream).result = .ok r' ∧
      r'.response = r.response ∧ r'.tokens_used = r.tokens_used ∧
      r'.success = true := by
  unfold chat_completion at h ⊢
  revert h
  rcases hp : chat_pre env user_id model_name message conversation_id temperature
      max_tokens stream with ⟨res, tr⟩
  intro h
  cases res with
  | error eb =>
    rcases eb with ⟨e', bound⟩
    simp at h
  | ok p =>
    have hr : r.response = p.response_text ∧ r.tokens_used = p.tokens_used := by
      have := h
      simp at this
      rw [← this]
      exact ⟨rfl, rfl⟩
    exact ⟨_, rfl, by rw [hr.1], by rw [hr.2], rfl⟩

/-- Witness for C9: the healthy run succeeds, and with both post-chat failure
flags raised it still returns success with the same response and tokens. -/
theorem c9_post_chat_failure_witness :
    ∃ r', (chat_completion envSuccess ⟨true, true⟩ 1 "gpt-4" "hi" none 1 100
        false).result = .ok r' ∧
      r'.response = "你好" ∧ r'.tokens_used = 7 ∧ r'.success = true :=
  c9_post_chat_failure_swallowed envSuccess ⟨true, true⟩ 1 "gpt-4" "hi" none 1
    100 false
    { response := "你好", model_used := "gpt-4", tokens_used := 7
      processing_time_ms := 5, conversation_id := 1, success := true } rfl

/-- Claim C10: a message whose stripped text exceeds 10000 characters is
rejected with the validation `ValueError` and the pre-dispatch effect trace is
empty — no model lookup, credential resolution, rate-limit check or network
dispatch happened. -/
theorem c10_long_message_rejected_before_effects (env : Env) (pflags : PostFlags)
    (user_id : Nat) (model_name message : String) (conversation_id : Option Nat)
    (temperature : Rat) (max_tokens : Nat) (stream : Bool)
    (h : 10000 < (pyStrip message).length) :
    (chat_completion env pflags user_id model_name message conversation_id
        temperature max_tokens stream).result
      = .error (.valueError "消息内容过长，最多10000个字符") ∧
    (chat_completion env pflags user_id model_name message conversation_id
        temperature max_tokens stream).trace = [] := by
  have hne : ¬ (message = "" ∨ pyStrip message = "") := by
    rintro (rfl | hs)
    · simp [pyStrip, pyStripList] at h
    · rw [hs] at h
      simp at h
  have hval : validate_user_input message model_name temperature max_tokens
      = .error (.valueError "消息内容过长，最多10000个字符") := by
    unfold validate_user_input
    rw [if_neg hne, if_pos h]
  unfold chat_completion chat_pre
  rw [hval]
  exact ⟨rfl, rfl⟩

/-- Witness for C10: the concrete 10001-character message is rejected with the
length `ValueError` before any effect. -/
theorem c10_long_message_witness :
    10000 < (pyStrip bigMessage).length ∧
    ((chat_completion envSuccess noPostFailure 1 "gpt-4" bigMessage none 1 100
        false).result = .error (.valueError "消息内容过长，最多10000个字符") ∧
     (chat_completion envSuccess noPostFailure 1 "gpt-4" bigMessage none 1 100
        false).trace = []) :=
  ⟨bigMessage_strip_long,
   c10_long_message_rejected_before_effects envSuccess noPostFailure 1 "gpt-4"
     bigMessage none 1 100 false bigMessage_strip_long⟩
